import Mathlib

/-!
Shallow embedding of the dependency-injection containers of the
zhorton34/container repository.

The repository ships three container implementations:
* Container       (src/container.ts) — the main class; on a circular
  dependency its resolve returns a lazy proxy object,
* DIContainer     (src/unnamed/part_008) — structurally the same class
  except that resolve throws CircularDependencyError on a cycle and
  dispatches Scoped bindings before the contextual-binding check,
* Container       (src/mod.ts) — the "Laravel style" container with
  make/tagged/when; its tagged throws InvalidTagError on an empty tag.

The first two share almost all of their code, so they are embedded as one
interpreter parameterised by an Impl flag that is consulted exactly at the
two places the sources differ.  The mod.ts container is embedded
separately (ModContainer below).

Modelling conventions:
* identifiers are strings (the claims only exercise string and class keys;
  class keys compare by reference, which string keys model faithfully
  as long as distinct classes get distinct names);
* JS values are the inductive Value; JS truthiness is the function truthy;
  object identity is an allocation counter (World.nextObj), so two objects
  are identical exactly when their ids coincide; the constructed object's
  fields are not stored (no claim reads a field), but the argument
  expressions of a constructor are still evaluated, so all resolution
  side effects and errors are preserved;
* factories are the small expression language FExpr, evaluated by eval;
  a factory receives the container it is invoked on, which is the cid
  argument of eval (FExpr.resolveF models a factory calling c.resolve);
* the mutable heap of containers is World: container objects are indexed
  by Nat, and parent/children links are indices;
* exceptions are the Except monad with error type Err; general recursion
  through factories is handled by a fuel parameter (Err.outOfFuel is
  distinct from every program error and never occurs in the concrete
  scenarios below, which use ample fuel);
* the middleware chain is not embedded: every claim scenario has an empty
  chain, and applyMiddleware with an empty chain returns the factory value
  unchanged (dispatch(0) sets fn = factory and returns fn()), so resolve
  below returns the produced value directly.
-/

/-- Identifiers (the Bindable key space restricted to the string kind). -/
abbrev Ident := String

/-- JS runtime values as far as the claims observe them.  vObj carries the
allocation id (object identity), the class tag it was constructed from and
whether the object exposes a dispose() release hook.  vProxy is the lazy
placeholder Container.resolve returns on a circular dependency. -/
inductive Value where
  | vUndefined : Value
  | vNull : Value
  | vBool (b : Bool) : Value
  | vNum (n : Int) : Value
  | vStr (s : String) : Value
  | vObj (id : Nat) (tag : String) (hasDispose : Bool) : Value
  | vProxy (ident : Ident) : Value
deriving DecidableEq, Repr

/-- JS truthiness: undefined, null, false, 0 and the empty string are
falsy; objects (and the circular-dependency proxy) are truthy. -/
def truthy : Value → Bool
  | .vUndefined => false
  | .vNull => false
  | .vBool b => b
  | .vNum n => n != 0
  | .vStr s => s != ""
  | .vObj _ _ _ => true
  | .vProxy _ => true

/-- Truthiness of `binding.instance` (undefined when absent). -/
def instTruthy : Option Value → Bool
  | none => false
  | some v => truthy v

/-- The named failures of src/errors.ts that the embedded operations can
raise.  Each constructor carries the data interpolated into the source's
error message: circular carries the dependency chain
(resolvingStack.concat(abstract)), unresolved the identifier whose name
the message prints, invalidSchema the identifier of the failed bind,
invalidTag the tag name.  outOfFuel is the fuel sentinel of the
embedding, not a program error. -/
inductive Err where
  | circular (chain : List Ident) : Err
  | unresolved (ident : Ident) : Err
  | invalidSchema (ident : Ident) : Err
  | invalidTag (tag : String) : Err
  | outOfFuel : Err
deriving DecidableEq, Repr

/-- The Lifetime enum of src/unnamed/part_008 (re-exported by types.ts). -/
inductive Lifetime where
  | singleton : Lifetime
  | transient : Lifetime
  | scoped : Lifetime
deriving DecidableEq, Repr

/-- Factory bodies: a factory is a function of the container; the claims
only need constants, fresh-object construction (optionally first
evaluating a dependency expression, modelling
`(c) => new A(c.resolve(B))`), and recursive resolution. -/
inductive FExpr where
  | const (v : Value) : FExpr
  | mkObj (tag : String) (hasDispose : Bool) : FExpr
  | mkObjWith (tag : String) (hasDispose : Bool) (dep : FExpr) : FExpr
  | resolveF (target : Ident) (ctx : Option Ident) : FExpr
deriving DecidableEq, Repr

/-- The give argument of a contextual binding: either a factory function
(invoked with the container) or a literal value used verbatim
(`typeof give === 'function' ? give(this) : give`). -/
inductive Giver where
  | fn (f : FExpr) : Giver
  | val (v : Value) : Giver
deriving DecidableEq, Repr

/-- One entry of the contextualBindings table ({when, need, give}); the
field when is renamed whenC for Lean. -/
structure CtxBinding where
  whenC : Ident
  need : Ident
  give : Giver
deriving DecidableEq, Repr

/-- A binding record {factory, lifetime, instance?}.  The instance field
is renamed inst for Lean.  The resolver field of the source is omitted:
it is fully determined by the method that created the binding
(bind/transient/singleton put the plain factory there, scoped installs
the instances-cache closure) and the interpreter reproduces each
resolver's behaviour by dispatching on the lifetime. -/
structure Binding where
  factory : FExpr
  lifetime : Lifetime
  inst : Option Value
deriving DecidableEq, Repr

/-- Association-list lookup (Map.get). -/
def lookupA {α : Type} : List (Ident × α) → Ident → Option α
  | [], _ => none
  | (k, v) :: rest, key => if k == key then some v else lookupA rest key

/-- Association-list overwrite-or-append (Map.set: an existing key keeps
its position, a new key is appended, matching JS Map iteration order). -/
def setA {α : Type} : List (Ident × α) → Ident → α → List (Ident × α)
  | [], key, v => [(key, v)]
  | (k, old) :: rest, key, v =>
    if k == key then (k, v) :: rest else (k, old) :: setA rest key v

/-- List membership test (Array.includes). -/
def memb : Ident → List Ident → Bool
  | _, [] => false
  | x, y :: rest => if y == x then true else memb x rest

/-- The private state of one Container/DIContainer object. -/
structure CState where
  bindings : List (Ident × Binding)
  instances : List (Ident × Value)
  aliases : List (Ident × Ident)
  tags : List (String × List Ident)
  contextual : List (Ident × List CtxBinding)
  resolvingStack : List Ident
  parent : Option Nat
  children : List Nat
deriving DecidableEq, Repr

/-- A freshly constructed container with the given parent link. -/
def freshCState (parent : Option Nat) : CState :=
  { bindings := [], instances := [], aliases := [], tags := [],
    contextual := [], resolvingStack := [], parent := parent,
    children := [] }

/-- The heap of containers plus the allocation counter for object
identity and the log of invoked dispose() release hooks (object ids in
invocation order). -/
structure World where
  containers : List CState
  nextObj : Nat
  disposeLog : List Nat
deriving DecidableEq, Repr

/-- A world holding one freshly constructed root container (index 0). -/
def freshWorld : World :=
  { containers := [freshCState none], nextObj := 0, disposeLog := [] }

/-- Indexed read over the container heap. -/
def getCList : List CState → Nat → CState
  | [], _ => freshCState none
  | c :: _, 0 => c
  | _ :: rest, n + 1 => getCList rest n

/-- Indexed update over the container heap. -/
def setCList : List CState → Nat → (CState → CState) → List CState
  | [], _, _ => []
  | c :: rest, 0, f => f c :: rest
  | c :: rest, n + 1, f => c :: setCList rest n f

/-- Read container cid (total; out-of-range never occurs in scenarios). -/
def getC (w : World) (cid : Nat) : CState :=
  getCList w.containers cid

/-- Replace container cid by f applied to it. -/
def setC (w : World) (cid : Nat) (f : CState → CState) : World :=
  { w with containers := setCList w.containers cid f }

/-- this.resolvingStack.push(abstract). -/
def pushStack (w : World) (cid : Nat) (abstract : Ident) : World :=
  setC w cid (fun c => { c with resolvingStack := c.resolvingStack ++ [abstract] })

/-- this.resolvingStack.pop() (the finally clause of resolve). -/
def popStack (w : World) (cid : Nat) : World :=
  setC w cid (fun c => { c with resolvingStack := c.resolvingStack.dropLast })

/-- getAlias: one level of alias indirection
(this.aliases.get(abstract) || abstract).  Identifiers here are always of
the string kind, for which the source performs the lookup. -/
def getAliasF (c : CState) (abstract : Ident) : Ident :=
  match lookupA c.aliases abstract with
  | some target => target
  | none => abstract

/-- Singleton caching after a build: binding.instance = instance and
this.instances.set(abstract, instance). -/
def cacheSingleton (w : World) (cid : Nat) (abstract : Ident) (v : Value) : World :=
  setC w cid (fun c =>
    { c with
        bindings :=
          (match lookupA c.bindings abstract with
           | some b => setA c.bindings abstract ({ b with inst := some v })
           | none => c.bindings),
        instances := setA c.instances abstract v })

/-- container.instances.set(abstract, instance) (the scoped resolver's
cache write). -/
def setInstance (w : World) (cid : Nat) (abstract : Ident) (v : Value) : World :=
  setC w cid (fun c => { c with instances := setA c.instances abstract v })

/-- find b => b.need === abstract over a contextual-binding list. -/
def findNeed : List CtxBinding → Ident → Option CtxBinding
  | [], _ => none
  | cb :: rest, abstract =>
    if cb.need == abstract then some cb else findNeed rest abstract

/-- Selects between the two near-identical implementations: Container of
src/container.ts and DIContainer of src/unnamed/part_008. -/
inductive Impl where
  | containerTs : Impl
  | diContainer : Impl
deriving DecidableEq, Repr

mutual

/-- resolve(abstract, context?) of Container (src/container.ts, lines
159-222) and DIContainer (src/unnamed/part_008, lines 138-192): alias
indirection, instances short-circuit, cycle check (proxy vs throw — the
one divergence, selected by impl), stack push, body, finally stack pop. -/
def resolve (impl : Impl) (fuel : Nat) (w : World) (cid : Nat)
    (original : Ident) (ctx : Option Ident) : Except Err (Value × World) :=
  match fuel with
  | 0 => .error .outOfFuel
  | fuel' + 1 =>
    let c := getC w cid
    let abstract := getAliasF c original
    match lookupA c.instances abstract with
    | some v => .ok (v, w)
    | none =>
      if memb abstract c.resolvingStack then
        match impl with
        | .containerTs => .ok (.vProxy abstract, w)
        | .diContainer => .error (.circular (c.resolvingStack ++ [abstract]))
      else
        match resolveBody impl fuel' (pushStack w cid abstract) cid original abstract ctx with
        | .ok (v, w2) => .ok (v, popStack w2 cid)
        | .error e => .error e
termination_by structural fuel

/-- The try block of resolve: binding lookup with parent delegation (the
parent is asked with the original, pre-alias identifier and without the
context argument), then lifetime dispatch, contextual-binding check,
build, and singleton caching.  DIContainer dispatches Scoped before the
contextual check (its extra else-if branch); Container reaches the scoped
resolver through build. -/
def resolveBody (impl : Impl) (fuel : Nat) (w : World) (cid : Nat)
    (original : Ident) (abstract : Ident) (ctx : Option Ident) :
    Except Err (Value × World) :=
  match fuel with
  | 0 => .error .outOfFuel
  | fuel' + 1 =>
    let c := getC w cid
    match lookupA c.bindings abstract with
    | none =>
      match c.parent with
      | some p => resolve impl fuel' w p original none
      | none => .error (.unresolved original)
    | some b =>
      if b.lifetime == .singleton && instTruthy b.inst then
        .ok (b.inst.getD .vUndefined, w)
      else if impl == .diContainer && b.lifetime == .scoped then
        scopedResolve impl fuel' w cid abstract b.factory
      else
        let ctxStep : Except Err (Option Value × World) :=
          match ctx with
          | some cx =>
            match findNeed ((lookupA c.contextual cx).getD []) abstract with
            | some cb =>
              match cb.give with
              | .fn f =>
                match evalF impl fuel' w cid f with
                | .ok (v, w1) => .ok (some v, w1)
                | .error e => .error e
              | .val v => .ok (some v, w)
            | none => .ok (none, w)
          | none => .ok (none, w)
        match ctxStep with
        | .error e => .error e
        | .ok (ctxInst, w1) =>
          let built : Except Err (Value × World) :=
            if instTruthy ctxInst then .ok (ctxInst.getD .vUndefined, w1)
            else
              match b.lifetime with
              | .scoped => scopedResolve impl fuel' w1 cid abstract b.factory
              | _ => evalF impl fuel' w1 cid b.factory
          match built with
          | .error e => .error e
          | .ok (v, w2) =>
            if b.lifetime == .singleton then
              .ok (v, cacheSingleton w2 cid abstract v)
            else .ok (v, w2)
termination_by structural fuel

/-- The resolver closure installed by scoped(): check the invoked
container's instances store, else run the factory there and cache the
result in that store. -/
def scopedResolve (impl : Impl) (fuel : Nat) (w : World) (cid : Nat)
    (abstract : Ident) (factory : FExpr) : Except Err (Value × World) :=
  match fuel with
  | 0 => .error .outOfFuel
  | fuel' + 1 =>
    match lookupA (getC w cid).instances abstract with
    | some v => .ok (v, w)
    | none =>
      match evalF impl fuel' w cid factory with
      | .ok (v, w1) => .ok (v, setInstance w1 cid abstract v)
      | .error e => .error e
termination_by structural fuel

/-- Evaluation of a factory body on container cid. -/
def evalF (impl : Impl) (fuel : Nat) (w : World) (cid : Nat) (e : FExpr) :
    Except Err (Value × World) :=
  match fuel with
  | 0 => .error .outOfFuel
  | fuel' + 1 =>
    match e with
    | .const v => .ok (v, w)
    | .mkObj tag hd => .ok (.vObj w.nextObj tag hd, { w with nextObj := w.nextObj + 1 })
    | .mkObjWith tag hd dep =>
      match evalF impl fuel' w cid dep with
      | .ok (_, w1) => .ok (.vObj w1.nextObj tag hd, { w1 with nextObj := w1.nextObj + 1 })
      | .error e => .error e
    | .resolveF target c2 => resolve impl fuel' w cid target c2
termination_by structural fuel

end

/-- bind(abstract, factory) without a schema: a Transient binding whose
resolver applies the factory to the container. -/
def Container.bind (w : World) (cid : Nat) (abstract : Ident) (factory : FExpr) : World :=
  setC w cid (fun c =>
    { c with
        bindings := setA c.bindings abstract
          ({ factory := factory, lifetime := .transient, inst := none }) })

/-- bind(abstract, factory, schema): the schema case first probe-builds
the factory on the container and validates the produced instance; a
failed parse raises InvalidSchemaError and the binding is not installed;
on success the Transient binding is installed on the post-probe world. -/
def Container.bindWithSchema (fuel : Nat) (w : World) (cid : Nat)
    (abstract : Ident) (factory : FExpr) (schema : Value → Bool) :
    Except Err World :=
  match evalF .containerTs fuel w cid factory with
  | .error e => .error e
  | .ok (v, w1) =>
    if schema v then .ok (Container.bind w1 cid abstract factory)
    else .error (.invalidSchema abstract)

/-- singleton(abstract, factory). -/
def Container.singleton (w : World) (cid : Nat) (abstract : Ident) (factory : FExpr) : World :=
  setC w cid (fun c =>
    { c with
        bindings := setA c.bindings abstract
          ({ factory := factory, lifetime := .singleton, inst := none }) })

/-- transient(abstract, factory). -/
def Container.transient (w : World) (cid : Nat) (abstract : Ident) (factory : FExpr) : World :=
  setC w cid (fun c =>
    { c with
        bindings := setA c.bindings abstract
          ({ factory := factory, lifetime := .transient, inst := none }) })

/-- scoped(abstract, factory). -/
def Container.scoped (w : World) (cid : Nat) (abstract : Ident) (factory : FExpr) : World :=
  setC w cid (fun c =>
    { c with
        bindings := setA c.bindings abstract
          ({ factory := factory, lifetime := .scoped, inst := none }) })

/-- instance(abstract, instance) (named instanceSet: instance is a Lean
keyword). -/
def Container.instanceSet (w : World) (cid : Nat) (abstract : Ident) (v : Value) : World :=
  setC w cid (fun c => { c with instances := setA c.instances abstract v })

/-- alias(aliasName, abstract). -/
def Container.alias (w : World) (cid : Nat) (aliasName : Ident) (abstract : Ident) : World :=
  setC w cid (fun c => { c with aliases := setA c.aliases aliasName abstract })

/-- tag(abstracts, tag): appends to the tag's member list, creating it on
first use. -/
def Container.tag (w : World) (cid : Nat) (abstracts : List Ident) (tag : String) : World :=
  setC w cid (fun c =>
    { c with
        tags := setA c.tags tag ((lookupA c.tags tag).getD [] ++ abstracts) })

/-- when(concrete).needs(need).give(give): appends one {when, need, give}
entry to the contextualBindings list of the concrete key. -/
def Container.whenNeedsGive (w : World) (cid : Nat) (concrete : Ident)
    (need : Ident) (give : Giver) : World :=
  setC w cid (fun c =>
    { c with
        contextual := setA c.contextual concrete
          ((lookupA c.contextual concrete).getD [] ++
            [({ whenC := concrete, need := need, give := give } : CtxBinding)]) })

/-- createScope(): a new container whose parent is cid, appended to the
heap and to cid's children; returns the new container's index. -/
def Container.createScope (w : World) (cid : Nat) : World × Nat :=
  let newId := w.containers.length
  let w1 := { w with containers := w.containers ++ [freshCState (some cid)] }
  (setC w1 cid (fun c => { c with children := c.children ++ [newId] }), newId)

/-- dispose(): invoke the dispose() release hook of every instance cached
on this container's own bindings (binding.instance, set only by the
Singleton cache write), then dispose the children recursively, then clear
bindings, instances, aliases, tags, contextualBindings and children.  The
parent link survives, as in the source. -/
def Container.dispose (fuel : Nat) (w : World) (cid : Nat) : World :=
  match fuel with
  | 0 => w
  | fuel' + 1 =>
    let c := getC w cid
    let w1 := c.bindings.foldl
      (fun acc kb =>
        match kb.2.inst with
        | some (.vObj id _ true) => { acc with disposeLog := acc.disposeLog ++ [id] }
        | _ => acc) w
    let w2 := c.children.foldl (fun acc ch => Container.dispose fuel' acc ch) w1
    setC w2 cid (fun cc =>
      { cc with
          bindings := [], instances := [], aliases := [], tags := [],
          contextual := [], children := [] })

/-- tagged(tag) of Container/DIContainer: (this.tags.get(tag) || [])
mapped through resolve — an unused tag yields the empty list, no error. -/
def resolveEach (impl : Impl) (fuel : Nat) (cid : Nat) :
    World → List Ident → Except Err (List Value × World)
  | w, [] => .ok ([], w)
  | w, x :: rest =>
    match resolve impl fuel w cid x none with
    | .error e => .error e
    | .ok (v, w1) =>
      match resolveEach impl fuel cid w1 rest with
      | .error e => .error e
      | .ok (vs, w2) => .ok (v :: vs, w2)

/-- Container.tagged (src/container.ts, lines 464-467). -/
def Container.tagged (impl : Impl) (fuel : Nat) (w : World) (cid : Nat)
    (tag : String) : Except Err (List Value × World) :=
  resolveEach impl fuel cid w ((lookupA (getC w cid).tags tag).getD [])

/-- The src/mod.ts Container as far as claim C6 needs it: a plain
bindings map from identifier to zero-argument factory and the tag table.
Its resolve additionally runs detectCircularDependencies only for
function-with-prototype identifiers and Zod validation only for
schema-object identifiers; string identifiers skip both, so neither step
appears here. -/
structure ModContainer where
  bindings : List (Ident × (Unit → Value))
  tags : List (String × List Ident)

/-- new Container() of src/mod.ts. -/
def ModContainer.empty : ModContainer := { bindings := [], tags := [] }

/-- bind(type, factory) of src/mod.ts. -/
def ModContainer.bind (c : ModContainer) (type : Ident) (factory : Unit → Value) :
    ModContainer :=
  { c with bindings := setA c.bindings type factory }

/-- tag(types, tag) of src/mod.ts (append semantics). -/
def ModContainer.tag (c : ModContainer) (types : List Ident) (tag : String) :
    ModContainer :=
  { c with tags := setA c.tags tag ((lookupA c.tags tag).getD [] ++ types) }

/-- resolve(type) of src/mod.ts for string identifiers: factory lookup,
UnresolvedDependencyError when absent, otherwise factory(). -/
def ModContainer.resolve (c : ModContainer) (type : Ident) : Except Err Value :=
  match lookupA c.bindings type with
  | none => .error (.unresolved type)
  | some factory => .ok (factory ())

/-- Member-list resolution for tagged (types.map(type => this.resolve(type)),
with a thrown error aborting the whole call). -/
def ModContainer.resolveList (c : ModContainer) : List Ident → Except Err (List Value)
  | [] => .ok []
  | x :: rest =>
    match c.resolve x with
    | .error e => .error e
    | .ok v =>
      match c.resolveList rest with
      | .error e => .error e
      | .ok vs => .ok (v :: vs)

/-- tagged(tag) of src/mod.ts (lines 301-309): a missing or empty member
list throws InvalidTagError, otherwise every member is resolved in
insertion order. -/
def ModContainer.tagged (c : ModContainer) (tag : String) : Except Err (List Value) :=
  match lookupA c.tags tag with
  | none => .error (.invalidTag tag)
  | some types =>
    if types.length == 0 then .error (.invalidTag tag)
    else c.resolveList types

/-- Observer: the value part of a resolution, discarding the final world. -/
def resolveValue (impl : Impl) (fuel : Nat) (w : World) (cid : Nat)
    (original : Ident) (ctx : Option Ident) : Except Err Value :=
  match resolve impl fuel w cid original ctx with
  | .ok (v, _) => .ok v
  | .error e => .error e

/-- Observer: resolve the same identifier twice in succession on one
container, reporting both values and the final allocation counter (the
number of fresh objects ever built). -/
def resolveTwice (impl : Impl) (fuel : Nat) (w : World) (cid : Nat)
    (x : Ident) : Except Err (Value × Value × Nat) :=
  match resolve impl fuel w cid x none with
  | .error e => .error e
  | .ok (v1, w1) =>
    match resolve impl fuel w1 cid x none with
    | .error e => .error e
    | .ok (v2, w2) => .ok (v1, v2, w2.nextObj)

/-- Observer: resolve the same identifier on two (sibling) containers in
succession, reporting both values and the final allocation counter. -/
def resolvePair (impl : Impl) (fuel : Nat) (w : World) (cid1 cid2 : Nat)
    (x : Ident) : Except Err (Value × Value × Nat) :=
  match resolve impl fuel w cid1 x none with
  | .error e => .error e
  | .ok (v1, w1) =>
    match resolve impl fuel w1 cid2 x none with
    | .error e => .error e
    | .ok (v2, w2) => .ok (v1, v2, w2.nextObj)

/-- Observer: the world after a resolution (the fallback is returned when
the resolution failed; scenario constructions below only use it after
resolutions proved successful). -/
def worldAfter (r : Except Err (Value × World)) (fallback : World) : World :=
  match r with
  | .ok (_, w) => w
  | .error _ => fallback

/-!  Scenario worlds used by the claim theorems. -/

/-- The binding cycle of the claims: a and b each bound with a factory
that constructs an object after resolving the other
(container.bind(A, c => new A(c.resolve(B))) and symmetrically). -/
def cycleWorld (a b : Ident) : World :=
  Container.bind
    (Container.bind freshWorld 0 a (.mkObjWith a false (.resolveF b none)))
    0 b (.mkObjWith b false (.resolveF a none))

/-- singleton(x, () => new Obj()) on a fresh root container. -/
def singletonWorld (x tag : String) (hd : Bool) : World :=
  Container.singleton freshWorld 0 x (.mkObj tag hd)

/-- The README Scoped Binding scenario: scoped(x, () => new Obj()) on the
root, then two sibling scopes created with createScope (heap indices 1
and 2). -/
def scopedSiblingsWorld (x tag : String) (hd : Bool) : World :=
  let w := Container.scoped freshWorld 0 x (.mkObj tag hd)
  let p := Container.createScope w 0
  (Container.createScope p.1 0).1

/-- bind(t, () => new Obj()) plus alias(l, t). -/
def aliasWorld (l t tag : String) (hd : Bool) : World :=
  Container.alias (Container.bind freshWorld 0 t (.mkObj tag hd)) 0 l t

/-- aliasWorld plus a second-level alias l2 -> l. -/
def aliasChainWorld (l2 l t tag : String) (hd : Bool) : World :=
  Container.alias (aliasWorld l t tag hd) 0 l2 l

/-- bind(dep, () => new Obj()) plus when(consumer).needs(dep).give(g). -/
def contextualWorld (dep consumer tagD : String) (hd : Bool) (g : Giver) : World :=
  Container.whenNeedsGive
    (Container.bind freshWorld 0 dep (.mkObj tagD hd)) 0 consumer dep g

/-- bind with schema followed, on success, by a resolution of the bound
identifier (the value part). -/
def bindThenResolve (fuel : Nat) (x tag : String) (hd : Bool)
    (schema : Value → Bool) : Except Err Value :=
  match Container.bindWithSchema fuel freshWorld 0 x (.mkObj tag hd) schema with
  | .error e => .error e
  | .ok w1 => resolveValue .containerTs fuel w1 0 x none

/-- A concrete schema for the C8 witness: accepts exactly the objects
whose class tag is "good". -/
def schemaGoodTag : Value → Bool :=
  fun v => match v with
  | .vObj _ t _ => t == "good"
  | _ => false

/-- Root with a disposable singleton x, a child scope (index 1) with its
own disposable singleton y, both resolved, so the root holds the object
with id 0 on its binding and the child the object with id 1. -/
def disposeWorld (x y tx ty : String) : World :=
  let w := Container.singleton freshWorld 0 x (.mkObj tx true)
  let w := (Container.createScope w 0).1
  let w := Container.singleton w 1 y (.mkObj ty true)
  let w := worldAfter (resolve .containerTs 10 w 0 x none) w
  worldAfter (resolve .containerTs 10 w 1 y none) w

/-- disposeWorld after dispose() on the root. -/
def disposedWorld (x y tx ty : String) : World :=
  Container.dispose 10 (disposeWorld x y tx ty) 0

/-- A root container with a resolved Scoped binding whose instance
exposes a dispose() hook: scoped("S", () => obj-with-dispose) followed by
resolve("S"), which caches the object in this.instances (the scoped
resolver never writes binding.instance). -/
def scopedDisposableWorld : World :=
  let w := Container.scoped freshWorld 0 "S" (.mkObj "S" true)
  worldAfter (resolve .containerTs 10 w 0 "S" none) w

/-- Two bindings tagged under "reports" in insertion order, on the
container.ts Container. -/
def taggedWorld : World :=
  let w := Container.bind freshWorld 0 "PDFReport" (.mkObj "PDF" false)
  let w := Container.bind w 0 "CSVReport" (.mkObj "CSV" false)
  Container.tag w 0 ["PDFReport", "CSVReport"] "reports"

/-- The same tagging scenario on the src/mod.ts Container. -/
def modTaggedScenario : ModContainer :=
  ((ModContainer.empty.bind "PDFReport" (fun _ => .vStr "PDF")).bind
    "CSVReport" (fun _ => .vStr "CSV")).tag ["PDFReport", "CSVReport"] "reports"

/-!  Claim theorems. -/

/-- C1, counterexample: the claim says that in every container in which A
and B are bound with mutually resolving factories, resolve(A) fails with
a CircularDependency error and does not return a placeholder or proxy
value.  On the Container of src/container.ts this is false: resolve("A")
succeeds, returning the object built after the inner resolution of "A"
was silently answered with the lazy circular-dependency proxy
(src/container.ts lines 167-181). -/
theorem C1_container_cycle_returns_value :
    resolveValue .containerTs 10 (cycleWorld "A" "B") 0 "A" none
      = .ok (.vObj 1 "A" false) := rfl

/-- C1, amended: on DIContainer (src/unnamed/part_008), resolving a in a
binding cycle a -> b -> a fails with CircularDependencyError whose
reported chain [a, b, a] contains both a and b; the Container of
src/container.ts instead returns a proxy placeholder for the cyclic
inner resolution and the outer resolve succeeds. -/
theorem C1_dicontainer_circular_error (a b : Ident) (h : a ≠ b) :
    resolveValue .diContainer 10 (cycleWorld a b) 0 a none
        = .error (.circular [a, b, a])
      ∧ a ∈ [a, b, a] ∧ b ∈ [a, b, a] := by
  refine ⟨?_, by simp, by simp⟩
  simp [resolveValue, resolve, resolveBody, scopedResolve, evalF, cycleWorld,
        Container.bind, freshWorld, freshCState, getC, setC, getCList, setCList,
        lookupA, setA, memb, getAliasF, pushStack, popStack, cacheSingleton,
        setInstance, instTruthy, truthy, findNeed, List.dropLast_concat,
        beq_eq_false_iff_ne.mpr h, beq_eq_false_iff_ne.mpr (Ne.symm h)]

/-- C1, witness for the amended theorem at a = "A", b = "B". -/
theorem C1_dicontainer_circular_error_witness :
    resolveValue .diContainer 10 (cycleWorld "A" "B") 0 "A" none
        = .error (.circular ["A", "B", "A"])
      ∧ "A" ∈ ["A", "B", "A"] ∧ "B" ∈ ["A", "B", "A"] :=
  C1_dicontainer_circular_error "A" "B" (by decide)

/-- C2: for every identifier x bound via singleton(x, factory) on a fresh
container, two successive resolve(x) calls return the identical instance
(the same object id), the factory runs exactly once (one allocation in
total), and the cached value is returned thereafter — on both the
Container of src/container.ts and the DIContainer of
src/unnamed/part_008. -/
theorem C2_singleton_identity (x tag : String) (hd : Bool) :
    resolveTwice .containerTs 10 (singletonWorld x tag hd) 0 x
        = .ok (.vObj 0 tag hd, .vObj 0 tag hd, 1)
      ∧ resolveTwice .diContainer 10 (singletonWorld x tag hd) 0 x
        = .ok (.vObj 0 tag hd, .vObj 0 tag hd, 1) := by
  constructor <;>
  simp [resolveTwice, resolve, resolveBody, scopedResolve, evalF,
        singletonWorld, Container.singleton, freshWorld, freshCState, getC, setC,
        getCList, setCList, lookupA, setA, memb, getAliasF, pushStack, popStack,
        cacheSingleton, setInstance, instTruthy, truthy, findNeed,
        List.dropLast_concat]

/-- C3, evaluation at the failing input: with x bound via
scoped(x, factory) on a parent container and two sibling scopes created
via createScope (the README's Scoped Binding scenario, which documents
the two instances as distinct), resolving x from the two siblings
returns the identical instance — both delegate to the parent, whose
instances store caches the single allocation — on both Container and
DIContainer; resolutions within one scope are identical as the claim
states. -/
theorem C3_scoped_siblings_share (x tag : String) (hd : Bool) :
    resolvePair .containerTs 10 (scopedSiblingsWorld x tag hd) 1 2 x
        = .ok (.vObj 0 tag hd, .vObj 0 tag hd, 1)
      ∧ resolvePair .diContainer 10 (scopedSiblingsWorld x tag hd) 1 2 x
        = .ok (.vObj 0 tag hd, .vObj 0 tag hd, 1)
      ∧ resolveTwice .containerTs 10 (scopedSiblingsWorld x tag hd) 1 x
        = .ok (.vObj 0 tag hd, .vObj 0 tag hd, 1) := by
  refine ⟨?_, ?_, ?_⟩ <;>
  simp [resolvePair, resolveTwice, resolve, resolveBody, scopedResolve, evalF,
        scopedSiblingsWorld, Container.scoped, Container.createScope, freshWorld,
        freshCState, getC, setC, getCList, setCList, lookupA, setA, memb,
        getAliasF, pushStack, popStack, cacheSingleton, setInstance, instTruthy,
        truthy, findNeed, List.dropLast_concat]

/-- C4: for every identifier x with no binding, no registered instance
and no alias anywhere, resolve(x) fails with UnresolvedDependencyError
carrying x — both on a fresh root container and on a fresh scope whose
parent chain also lacks x (the error still names x, the original
identifier passed down the delegation). -/
theorem C4_unresolved_error (x : Ident) :
    resolveValue .containerTs 10 freshWorld 0 x none = .error (.unresolved x)
      ∧ resolveValue .containerTs 10 (Container.createScope freshWorld 0).1 1 x none
        = .error (.unresolved x) := by
  constructor <;>
  simp [resolveValue, resolve, resolveBody, scopedResolve, evalF,
        Container.createScope, freshWorld, freshCState, getC, setC, getCList,
        setCList, lookupA, setA, memb, getAliasF, pushStack, popStack,
        instTruthy, truthy, findNeed, List.dropLast_concat]

/-- C5: after alias(l, t) with t bound, resolve(l) returns the same
result as resolve(t) (here the literally equal outcome, factories being
deterministic in the model); and alias indirection is applied exactly one
hop: with l2 aliased to l, which is itself only an alias for the bound t,
resolve(l2) does not resolve transitively and fails with
UnresolvedDependencyError naming l2. -/
theorem C5_alias_single_hop (l t l2 tag : String) (hd : Bool)
    (hlt : l ≠ t) (hl2 : l2 ≠ l) :
    resolveValue .containerTs 10 (aliasWorld l t tag hd) 0 l none
        = resolveValue .containerTs 10 (aliasWorld l t tag hd) 0 t none
      ∧ resolveValue .containerTs 10 (aliasWorld l t tag hd) 0 l none
        = .ok (.vObj 0 tag hd)
      ∧ resolveValue .containerTs 10 (aliasChainWorld l2 l t tag hd) 0 l2 none
        = .error (.unresolved l2) := by
  refine ⟨?_, ?_, ?_⟩ <;>
  simp [resolveValue, resolve, resolveBody, scopedResolve, evalF, aliasWorld,
        aliasChainWorld, Container.bind, Container.alias, freshWorld, freshCState,
        getC, setC, getCList, setCList, lookupA, setA, memb, getAliasF, pushStack,
        popStack, cacheSingleton, setInstance, instTruthy, truthy, findNeed,
        List.dropLast_concat,
        beq_eq_false_iff_ne.mpr hlt, beq_eq_false_iff_ne.mpr (Ne.symm hlt),
        beq_eq_false_iff_ne.mpr hl2, beq_eq_false_iff_ne.mpr (Ne.symm hl2)]

/-- C5, witness at l = "L", t = "Logger", l2 = "L2". -/
theorem C5_alias_single_hop_witness :
    resolveValue .containerTs 10 (aliasWorld "L" "Logger" "Log" false) 0 "L" none
        = resolveValue .containerTs 10 (aliasWorld "L" "Logger" "Log" false) 0 "Logger" none
      ∧ resolveValue .containerTs 10 (aliasWorld "L" "Logger" "Log" false) 0 "L" none
        = .ok (.vObj 0 "Log" false)
      ∧ resolveValue .containerTs 10 (aliasChainWorld "L2" "L" "Logger" "Log" false) 0 "L2" none
        = .error (.unresolved "L2") :=
  C5_alias_single_hop "L" "Logger" "L2" "Log" false (by decide) (by decide)

/-- C6, evaluation at the failing input: tagged("t") after tag([A, B], "t")
resolves A then B in insertion order on both the src/mod.ts Container and
the src/container.ts Container, and on the src/mod.ts Container an unused
tag fails with InvalidTagError — but the src/container.ts Container (the
class its own test file container.test.ts asserts throws InvalidTagError
on "nonexistent-tag") instead returns the empty list without error. -/
theorem C6_tagged_order_and_empty_tag :
    modTaggedScenario.tagged "reports" = .ok [.vStr "PDF", .vStr "CSV"]
      ∧ ModContainer.empty.tagged "nonexistent-tag"
        = .error (.invalidTag "nonexistent-tag")
      ∧ (Container.tagged .containerTs 10 taggedWorld 0 "reports").map Prod.fst
        = .ok [.vObj 0 "PDF" false, .vObj 1 "CSV" false]
      ∧ (Container.tagged .containerTs 10 freshWorld 0 "nonexistent-tag").map Prod.fst
        = .ok [] := ⟨rfl, rfl, rfl, rfl⟩

/-- C7, counterexample: the claim says resolve(Dep, Consumer) yields the
contextually given V for every registered giver; with the falsy literal
giver 0 the code instead falls back to Dep's default binding and returns
the freshly built default object, not 0. -/
theorem C7_falsy_give_not_returned :
    resolveValue .containerTs 10
        (contextualWorld "Dep" "Consumer" "D" false (.val (.vNum 0)))
        0 "Dep" (some "Consumer")
      = .ok (.vObj 0 "D" false)
      ∧ Value.vObj 0 "D" false ≠ Value.vNum 0 := ⟨rfl, by decide⟩

/-- C7, amended: provided the giver produces a truthy value v,
resolve(dep, consumer) yields v — invoking the giver with the container
when it is a factory and using it verbatim when it is a literal — while
resolve(dep) without the context argument yields the value produced by
dep's default binding. -/
theorem C7_contextual_override (dep consumer tagD : String) (hd : Bool)
    (v : Value) (hv : truthy v = true) :
    resolveValue .containerTs 10 (contextualWorld dep consumer tagD hd (.val v))
        0 dep (some consumer) = .ok v
      ∧ resolveValue .containerTs 10
          (contextualWorld dep consumer tagD hd (.fn (.const v)))
          0 dep (some consumer) = .ok v
      ∧ resolveValue .containerTs 10 (contextualWorld dep consumer tagD hd (.val v))
          0 dep none = .ok (.vObj 0 tagD hd) := by
  refine ⟨?_, ?_, ?_⟩ <;>
  simp [resolveValue, resolve, resolveBody, scopedResolve, evalF, contextualWorld,
        Container.bind, Container.whenNeedsGive, freshWorld, freshCState, getC,
        setC, getCList, setCList, lookupA, setA, memb, getAliasF, pushStack,
        popStack, cacheSingleton, setInstance, instTruthy, findNeed,
        List.dropLast_concat, hv]

/-- C7, witness at the truthy giver value "dev". -/
theorem C7_contextual_override_witness :
    resolveValue .containerTs 10
        (contextualWorld "Dep" "Consumer" "D" false (.val (.vStr "dev")))
        0 "Dep" (some "Consumer") = .ok (.vStr "dev")
      ∧ resolveValue .containerTs 10
          (contextualWorld "Dep" "Consumer" "D" false (.fn (.const (.vStr "dev"))))
          0 "Dep" (some "Consumer") = .ok (.vStr "dev")
      ∧ resolveValue .containerTs 10
          (contextualWorld "Dep" "Consumer" "D" false (.val (.vStr "dev")))
          0 "Dep" none = .ok (.vObj 0 "D" false) :=
  C7_contextual_override "Dep" "Consumer" "D" false (.vStr "dev") (by decide)

/-- C8: the code validates a schema-carrying bind eagerly at the bind
call (the documented either/or of the claim): when the probe-built
factory output does not conform, bind itself fails with
InvalidSchemaError naming the identifier, and when it conforms, bind
succeeds and the subsequent resolution succeeds normally (the resolved
object carries allocation id 1 because the eager probe at bind time
already invoked the factory once). -/
theorem C8_schema_validation (x tag : String) (hd : Bool) (s : Value → Bool) :
    (s (.vObj 0 tag hd) = false →
      Container.bindWithSchema 10 freshWorld 0 x (.mkObj tag hd) s
        = .error (.invalidSchema x))
      ∧ (s (.vObj 0 tag hd) = true →
          bindThenResolve 10 x tag hd s = .ok (.vObj 1 tag hd)) := by
  constructor <;> intro hs <;>
  simp [bindThenResolve, Container.bindWithSchema, resolveValue, resolve,
        resolveBody, scopedResolve, evalF, Container.bind, freshWorld, freshCState,
        getC, setC, getCList, setCList, lookupA, setA, memb, getAliasF, pushStack,
        popStack, cacheSingleton, setInstance, instTruthy, truthy, findNeed,
        List.dropLast_concat, hs]

/-- C8, witness with the tag-checking schema: a "bad"-tagged factory
fails the bind, a "good"-tagged factory binds and resolves. -/
theorem C8_schema_validation_witness :
    Container.bindWithSchema 10 freshWorld 0 "X" (.mkObj "bad" false) schemaGoodTag
        = .error (.invalidSchema "X")
      ∧ bindThenResolve 10 "X" "good" false schemaGoodTag
        = .ok (.vObj 1 "good" false) :=
  ⟨(C8_schema_validation "X" "bad" false schemaGoodTag).1 rfl,
   (C8_schema_validation "X" "good" false schemaGoodTag).2 rfl⟩

/-- C9, counterexample: the claim says dispose() invokes the release hook
exactly once on every Singleton/Scoped instance the scope created.  A
resolved Scoped instance with a dispose() method sits in the scope's
instances store (the scoped resolver never writes binding.instance, the
only place dispose() looks), so dispose() invokes its hook zero times. -/
theorem C9_scoped_hook_never_invoked :
    lookupA (getC scopedDisposableWorld 0).instances "S" = some (.vObj 0 "S" true)
      ∧ (Container.dispose 10 scopedDisposableWorld 0).disposeLog = [] :=
  ⟨rfl, rfl⟩

/-- Computation of the dispose scenario: after dispose() on the root,
both containers are back to freshly-constructed table state (the child
keeps its parent link), and the release hooks ran exactly once per
singleton-cached object, the root's own hook before the child's. -/
theorem disposedWorld_eq (x y tx ty : String) :
    disposedWorld x y tx ty
      = { containers := [freshCState none, freshCState (some 0)],
          nextObj := 2, disposeLog := [0, 1] } := by
  simp [disposedWorld, disposeWorld, Container.dispose, worldAfter, resolve,
        resolveBody, scopedResolve, evalF, Container.singleton,
        Container.createScope, freshWorld, freshCState, getC, setC, getCList,
        setCList, lookupA, setA, memb, getAliasF, pushStack, popStack,
        cacheSingleton, setInstance, instTruthy, truthy, findNeed,
        List.dropLast_concat]

/-- C9, amended: dispose() invokes the release hook exactly once on each
Singleton instance cached on the scope's own bindings (the root's own
hook runs before the children are disposed recursively), then clears
bindings, instances, aliases, tags, contextual bindings and children of
the scope and, depth-first, of every child scope, so a subsequent
resolution finds empty tables and fails as on a freshly constructed
container; Scoped instances, which live only in the instances store,
never receive the hook. -/
theorem C9_dispose_behaviour (x y tx ty : String) :
    (disposedWorld x y tx ty).disposeLog = [0, 1]
      ∧ (getC (disposedWorld x y tx ty) 0).bindings = []
      ∧ (getC (disposedWorld x y tx ty) 0).instances = []
      ∧ (getC (disposedWorld x y tx ty) 0).aliases = []
      ∧ (getC (disposedWorld x y tx ty) 0).tags = []
      ∧ (getC (disposedWorld x y tx ty) 0).contextual = []
      ∧ (getC (disposedWorld x y tx ty) 0).children = []
      ∧ (getC (disposedWorld x y tx ty) 1).bindings = []
      ∧ (getC (disposedWorld x y tx ty) 1).instances = []
      ∧ resolveValue .containerTs 10 (disposedWorld x y tx ty) 0 x none
        = .error (.unresolved x) := by
  rw [disposedWorld_eq]
  refine ⟨rfl, rfl, rfl, rfl, rfl, rfl, rfl, rfl, rfl, ?_⟩
  simp [resolveValue, resolve, resolveBody, scopedResolve, evalF, freshCState,
        getC, setC, getCList, setCList, lookupA, setA, memb, getAliasF,
        pushStack, popStack, instTruthy, truthy, findNeed]

/-- C10: for every contextual binding whose giver produces a falsy value
(undefined, null, false, 0 or the empty string), resolve(dep, consumer)
does not return that falsy value and raises no error at this layer: it
silently falls back to building dep via its default binding's factory —
on the Container of src/container.ts (literal and factory giver alike)
and on the DIContainer of src/unnamed/part_008. -/
theorem C10_falsy_contextual_fallback (dep consumer tagD : String) (hd : Bool)
    (v : Value) (hv : truthy v = false) :
    resolveValue .containerTs 10 (contextualWorld dep consumer tagD hd (.val v))
        0 dep (some consumer) = .ok (.vObj 0 tagD hd)
      ∧ resolveValue .containerTs 10
          (contextualWorld dep consumer tagD hd (.fn (.const v)))
          0 dep (some consumer) = .ok (.vObj 0 tagD hd)
      ∧ resolveValue .diContainer 10 (contextualWorld dep consumer tagD hd (.val v))
          0 dep (some consumer) = .ok (.vObj 0 tagD hd)
      ∧ Value.vObj 0 tagD hd ≠ v := by
  refine ⟨?_, ?_, ?_, ?_⟩
  case _ =>
    simp [resolveValue, resolve, resolveBody, scopedResolve, evalF, contextualWorld,
          Container.bind, Container.whenNeedsGive, freshWorld, freshCState, getC,
          setC, getCList, setCList, lookupA, setA, memb, getAliasF, pushStack,
          popStack, cacheSingleton, setInstance, instTruthy, findNeed,
          List.dropLast_concat, hv]
  case _ =>
    simp [resolveValue, resolve, resolveBody, scopedResolve, evalF, contextualWorld,
          Container.bind, Container.whenNeedsGive, freshWorld, freshCState, getC,
          setC, getCList, setCList, lookupA, setA, memb, getAliasF, pushStack,
          popStack, cacheSingleton, setInstance, instTruthy, findNeed,
          List.dropLast_concat, hv]
  case _ =>
    simp [resolveValue, resolve, resolveBody, scopedResolve, evalF, contextualWorld,
          Container.bind, Container.whenNeedsGive, freshWorld, freshCState, getC,
          setC, getCList, setCList, lookupA, setA, memb, getAliasF, pushStack,
          popStack, cacheSingleton, setInstance, instTruthy, findNeed,
          List.dropLast_concat, hv]
  case _ =>
    intro heq
    rw [← heq] at hv
    simp [truthy] at hv

/-- C10, witness at the falsy giver value undefined. -/
theorem C10_falsy_contextual_fallback_witness :
    resolveValue .containerTs 10
        (contextualWorld "Dep" "Consumer" "D" false (.val .vUndefined))
        0 "Dep" (some "Consumer") = .ok (.vObj 0 "D" false)
      ∧ resolveValue .containerTs 10
          (contextualWorld "Dep" "Consumer" "D" false (.fn (.const .vUndefined)))
          0 "Dep" (some "Consumer") = .ok (.vObj 0 "D" false)
      ∧ resolveValue .diContainer 10
          (contextualWorld "Dep" "Consumer" "D" false (.val .vUndefined))
          0 "Dep" (some "Consumer") = .ok (.vObj 0 "D" false)
      ∧ Value.vObj 0 "D" false ≠ Value.vUndefined :=
  C10_falsy_contextual_fallback "Dep" "Consumer" "D" false .vUndefined (by decide)
